import Mathlib

/-!
Verification of the package initializer `blockstack/lib/__init__.py`.

The file under study is a Python 2 package initializer whose module body
consists exclusively of import statements (source lines 24-45).  We give a
shallow embedding of that body: each statement form is a constructor of
`Stmt`, the body itself is the concrete list `moduleBody`, and execution is
a fold over the list that threads the package namespace (an association
list from names to bound values, most recent binding first) and stops at
the first import error, exactly as Python stops executing a module body at
the first uncaught exception.
-/

namespace BlockstackLib

/-- A value bound in the package namespace: a symbol re-exported from a
submodule (tagged with the submodule it came from), a submodule object of
the package, or a top-level module object. -/
inductive Value where
  | symbol (modName symName : String)
  | submodule (modName : String)
  | topmodule (modName : String)
deriving DecidableEq, Repr

/-- Modelled from the spec: the submodules of `blockstack.lib` (atlas, b40,
config, scripts, hashing, snv, rpc, subdomains, nameset, operations,
fast_sync, storage) are not part of the supplied source; each is modelled
abstractly by its table of public symbols, the names a wildcard import of
the submodule binds. -/
structure Module where
  publicSymbols : List String
deriving DecidableEq, Repr

/-- An environment mapping module names to modules (the package's own
submodules, or the interpreter's top-level modules). -/
abbrev Env := List (String × Module)

/-- A namespace: an association list from names to values, with the most
recent binding first, so `List.lookup` returns the latest binding. -/
abbrev NS := List (String × Value)

/-- The three statement forms occurring in the module body:
`fromStar m` is a package-relative wildcard import (a `from .m` statement
bringing in every public symbol), `fromImport m s` is a package-relative
single-symbol import, and `importPlain m` is a plain statement naming the
module without the package-relative dot prefix. -/
inductive Stmt where
  | fromStar (modName : String)
  | fromImport (modName : String) (symName : String)
  | importPlain (modName : String)
deriving DecidableEq, Repr

/-- The module a statement imports from. -/
def Stmt.modName : Stmt → String
  | .fromStar m => m
  | .fromImport m _ => m
  | .importPlain m => m

/-- The module a bound value originates from. -/
def Value.origin : Value → String
  | .symbol m _ => m
  | .submodule m => m
  | .topmodule m => m

/-- The module body of `blockstack/lib/__init__.py`, lines 24-45, in source
order: eleven package-relative imports (ten wildcard imports plus the
single-symbol import of `BlockstackAPIEndpoint` from `rpc`), followed by
nine plain imports of submodule names without the dot prefix. -/
def moduleBody : List Stmt :=
  [ .fromStar "atlas", .fromStar "b40", .fromStar "config",
    .fromStar "scripts", .fromStar "hashing", .fromStar "snv",
    .fromImport "rpc" "BlockstackAPIEndpoint", .fromStar "subdomains",
    .fromStar "nameset", .fromStar "operations", .fromStar "fast_sync",
    .importPlain "atlas", .importPlain "operations", .importPlain "nameset",
    .importPlain "storage", .importPlain "config", .importPlain "fast_sync",
    .importPlain "snv", .importPlain "rpc", .importPlain "subdomains" ]

/-- The bindings a wildcard import of module `m` adds: every public symbol,
bound to the value originating from `m`. -/
def starBindings (m : String) (mod : Module) : List (String × Value) :=
  mod.publicSymbols.map fun s => (s, Value.symbol m s)

/-- Python 2 semantics of a single import statement, as the list of
bindings it adds to the namespace, or an import error.  `env` holds the
package's submodules, `top` the interpreter's top-level modules, and `rel`
selects Python 2 implicit-relative resolution for plain imports (package
submodules first, then top-level) versus absolute resolution (top-level
only). -/
def execStmt (env top : Env) (rel : Bool) : Stmt → Except String (List (String × Value))
  | .fromStar m =>
      match env.lookup m with
      | some mod => .ok (starBindings m mod)
      | none => .error ("No module named " ++ m)
  | .fromImport m s =>
      match env.lookup m with
      | some mod =>
          if s ∈ mod.publicSymbols then .ok [(s, Value.symbol m s)]
          else .error ("cannot import name " ++ s)
      | none => .error ("No module named " ++ m)
  | .importPlain m =>
      match (if rel then env.lookup m else none) with
      | some _ => .ok [(m, Value.submodule m)]
      | none =>
          match top.lookup m with
          | some _ => .ok [(m, Value.topmodule m)]
          | none => .error ("No module named " ++ m)

/-- Execution of a statement list from a given namespace: each successful
statement prepends its bindings (newest first, so later bindings shadow
earlier ones, as in a Python module dict), and the first error stops
execution, returning the namespace accumulated so far together with the
error, as an uncaught exception leaves the partially initialized module. -/
def execStmts (env top : Env) (rel : Bool) : List Stmt → NS → NS × Option String
  | [], ns => (ns, none)
  | st :: rest, ns =>
      match execStmt env top rel st with
      | .ok bs => execStmts env top rel rest (bs ++ ns)
      | .error e => (ns, some e)

/-- Running the package initializer: execute the module body from the empty
namespace. -/
def runInit (env top : Env) (rel : Bool) : NS × Option String :=
  execStmts env top rel moduleBody []

/-- The package namespace after the initializer has run (partially, when
an import failed). -/
def initNS (env top : Env) (rel : Bool) : NS := (runInit env top rel).1

/-- Modelled from the spec: the standard environment in which the package's
twelve submodules (the eleven imported ones plus `storage`) all exist,
with arbitrary public-symbol tables, since the submodule sources are not
supplied. -/
def stdEnv (atlasM b40M configM scriptsM hashingM snvM rpcM subdomainsM
    namesetM operationsM fastSyncM storageM : Module) : Env :=
  [ ("atlas", atlasM), ("b40", b40M), ("config", configM),
    ("scripts", scriptsM), ("hashing", hashingM), ("snv", snvM),
    ("rpc", rpcM), ("subdomains", subdomainsM), ("nameset", namesetM),
    ("operations", operationsM), ("fast_sync", fastSyncM),
    ("storage", storageM) ]

/-- The public symbols of module `m` in environment `env`. -/
def pubOf (env : Env) (m : String) : List String :=
  match env.lookup m with
  | some mod => mod.publicSymbols
  | none => []

/-- The ten submodules whose public symbols are wildcard-imported, in
source order. -/
def starModules : List String :=
  [ "atlas", "b40", "config", "scripts", "hashing", "snv",
    "subdomains", "nameset", "operations", "fast_sync" ]

/-- The nine submodules imported by the trailing plain import statements,
in source order. -/
def plainModules : List String :=
  [ "atlas", "operations", "nameset", "storage", "config", "fast_sync",
    "snv", "rpc", "subdomains" ]

/-- The modules wildcard-imported by the body, read off syntactically. -/
def starImported : List String :=
  moduleBody.filterMap fun st =>
    match st with
    | .fromStar m => some m
    | _ => none

/-- The modules plainly imported by the body, read off syntactically. -/
def plainImported : List String :=
  moduleBody.filterMap fun st =>
    match st with
    | .importPlain m => some m
    | _ => none

/-- The explicit final namespace produced by a successful run of the
initializer over the standard environment: the nine plain submodule
bindings (newest first), then the wildcard bindings in reverse source
order, with the single `BlockstackAPIEndpoint` binding between the `snv`
and `subdomains` wildcard blocks. -/
def finalNS (atlasM b40M configM scriptsM hashingM snvM
    subdomainsM namesetM operationsM fastSyncM : Module) : NS :=
  [ ("subdomains", Value.submodule "subdomains"),
    ("rpc", Value.submodule "rpc"),
    ("snv", Value.submodule "snv"),
    ("fast_sync", Value.submodule "fast_sync"),
    ("config", Value.submodule "config"),
    ("storage", Value.submodule "storage"),
    ("nameset", Value.submodule "nameset"),
    ("operations", Value.submodule "operations"),
    ("atlas", Value.submodule "atlas") ]
  ++ starBindings "fast_sync" fastSyncM
  ++ starBindings "operations" operationsM
  ++ starBindings "nameset" namesetM
  ++ starBindings "subdomains" subdomainsM
  ++ [("BlockstackAPIEndpoint", Value.symbol "rpc" "BlockstackAPIEndpoint")]
  ++ starBindings "snv" snvM
  ++ starBindings "hashing" hashingM
  ++ starBindings "scripts" scriptsM
  ++ starBindings "config" configM
  ++ starBindings "b40" b40M
  ++ starBindings "atlas" atlasM

/-- Looking up a key bound in the left part of an appended association
list returns that binding. -/
theorem lookup_append_left {s : String} {l1 l2 : NS} {v : Value}
    (h : List.lookup s l1 = some v) :
    List.lookup s (l1 ++ l2) = some v := by
  induction l1 with
  | nil => simp [List.lookup] at h
  | cons p rest ih =>
      rw [List.cons_append]
      rw [List.lookup] at h ⊢
      cases hsk : (s == p.1) with
      | true =>
          rw [hsk] at h
          exact h
      | false =>
          rw [hsk] at h
          exact ih h

/-- Looking up a key that is bound somewhere in the right part of an
appended association list succeeds. -/
theorem lookup_append_isSome {s : String} {l2 : NS} (l1 : NS)
    (h : (List.lookup s l2).isSome) :
    (List.lookup s (l1 ++ l2)).isSome := by
  induction l1 with
  | nil => exact h
  | cons p rest ih =>
      rw [List.cons_append, List.lookup]
      cases hsk : (s == p.1) with
      | true => rfl
      | false => exact ih

/-- Looking up a key absent from the keys of the left part of an appended
association list falls through to the right part. -/
theorem lookup_append_not_mem {s : String} {l1 l2 : NS}
    (h : s ∉ l1.map Prod.fst) :
    List.lookup s (l1 ++ l2) = List.lookup s l2 := by
  induction l1 with
  | nil => simp
  | cons p rest ih =>
      simp only [List.map_cons, List.mem_cons] at h
      push_neg at h
      rw [List.cons_append, List.lookup]
      have : (s == p.1) = false := beq_false_of_ne h.1
      rw [this]
      exact ih h.2

/-- Looking up a symbol in the binding list built from a symbol list finds
the corresponding symbol value. -/
theorem lookup_map_symbol {m s : String} {l : List String} (h : s ∈ l) :
    List.lookup s (l.map fun t => (t, Value.symbol m t))
      = some (Value.symbol m s) := by
  induction l with
  | nil => simp at h
  | cons t rest ih =>
      rw [List.map_cons, List.lookup]
      cases hsk : (s == t) with
      | true =>
          have heq : s = t := eq_of_beq hsk
          subst heq
          rfl
      | false =>
          have hne : s ≠ t := ne_of_beq_false hsk
          rcases List.mem_cons.mp h with rfl | h2
          · exact absurd rfl hne
          · exact ih h2

/-- A wildcard import of module `m` binds each of its public symbols to the
symbol value originating from `m`. -/
theorem lookup_starBindings {m s : String} {mod : Module}
    (h : s ∈ mod.publicSymbols) :
    List.lookup s (starBindings m mod) = some (Value.symbol m s) :=
  lookup_map_symbol h

/-- The keys a wildcard import binds are exactly the module's public
symbols. -/
theorem keys_map_symbol (m : String) (l : List String) :
    (l.map fun t => (t, Value.symbol m t)).map Prod.fst = l := by
  induction l with
  | nil => rfl
  | cons t rest ih =>
      simp only [List.map_cons]
      rw [ih]

/-- The keys a wildcard import binds are exactly the module's public
symbols. -/
theorem keys_starBindings (m : String) (mod : Module) :
    (starBindings m mod).map Prod.fst = mod.publicSymbols :=
  keys_map_symbol m mod.publicSymbols

/-- Every binding added by a wildcard import of `m` carries a symbol value
originating from `m`. -/
theorem mem_starBindings {m : String} {mod : Module} {p : String × Value}
    (h : p ∈ starBindings m mod) :
    p.2 = Value.symbol m p.1 ∧ p.1 ∈ mod.publicSymbols := by
  simp only [starBindings, List.mem_map] at h
  obtain ⟨t, ht, rfl⟩ := h
  exact ⟨rfl, ht⟩

/-- Executing an appended statement list whose first part succeeds
continues with the second part from the intermediate namespace. -/
theorem execStmts_append_ok {env top : Env} {rel : Bool}
    {l1 l2 : List Stmt} {ns ns1 : NS}
    (h : execStmts env top rel l1 ns = (ns1, none)) :
    execStmts env top rel (l1 ++ l2) ns = execStmts env top rel l2 ns1 := by
  induction l1 generalizing ns with
  | nil =>
      simp only [execStmts] at h
      cases h
      rfl
  | cons st rest ih =>
      rw [List.cons_append]
      rw [execStmts] at h ⊢
      cases hst : execStmt env top rel st with
      | ok bs =>
          rw [hst] at h
          exact ih h
      | error e =>
          rw [hst] at h
          cases h

/-- Executing an appended statement list whose first part fails stops at
that failure: the second part never runs and the namespace and error of
the first part are returned unchanged. -/
theorem execStmts_append_err {env top : Env} {rel : Bool}
    {l1 l2 : List Stmt} {ns ns1 : NS} {e : String}
    (h : execStmts env top rel l1 ns = (ns1, some e)) :
    execStmts env top rel (l1 ++ l2) ns = (ns1, some e) := by
  induction l1 generalizing ns with
  | nil =>
      simp only [execStmts] at h
      cases h
  | cons st rest ih =>
      rw [List.cons_append]
      rw [execStmts] at h ⊢
      cases hst : execStmt env top rel st with
      | ok bs =>
          rw [hst] at h
          exact ih h
      | error e2 =>
          rw [hst] at h
          exact h

/-- The names a statement binds when executed: the keys of its bindings on
success, nothing on failure. -/
def stmtBoundNames (env top : Env) (rel : Bool) (st : Stmt) : List String :=
  match execStmt env top rel st with
  | .ok bs => bs.map Prod.fst
  | .error _ => []

/-- If no statement of a list binds the name `s`, executing the list
leaves the binding of `s` unchanged, whether or not execution runs to
completion. -/
theorem execStmts_lookup_skip {env top : Env} {rel : Bool} {s : String}
    {stmts : List Stmt} {ns : NS}
    (h : ∀ st ∈ stmts, s ∉ stmtBoundNames env top rel st) :
    List.lookup s (execStmts env top rel stmts ns).1 = List.lookup s ns := by
  induction stmts generalizing ns with
  | nil => rfl
  | cons st rest ih =>
      rw [execStmts]
      cases hst : execStmt env top rel st with
      | ok bs =>
          have hs : s ∉ bs.map Prod.fst := by
            have h1 := h st (List.mem_cons_self st rest)
            rw [stmtBoundNames, hst] at h1
            exact h1
          have hrest : ∀ st2 ∈ rest, s ∉ stmtBoundNames env top rel st2 :=
            fun st2 h2 => h st2 (List.mem_cons_of_mem st h2)
          rw [ih hrest]
          exact lookup_append_not_mem hs
      | error e => rfl

/-- A name bound before execution of a statement list stays bound after it
(possibly rebound to another value), whether or not execution runs to
completion: execution only prepends bindings. -/
theorem execStmts_isSome_mono {env top : Env} {rel : Bool} {s : String}
    {stmts : List Stmt} {ns : NS}
    (h : (List.lookup s ns).isSome) :
    (List.lookup s (execStmts env top rel stmts ns).1).isSome := by
  induction stmts generalizing ns with
  | nil => exact h
  | cons st rest ih =>
      rw [execStmts]
      cases hst : execStmt env top rel st with
      | ok bs => exact ih (lookup_append_isSome bs h)
      | error e => exact h

/-- Every binding a successful statement adds originates from the module
the statement imports from. -/
theorem execStmt_ok_origin {env top : Env} {rel : Bool} {st : Stmt}
    {bs : List (String × Value)} {p : String × Value}
    (h : execStmt env top rel st = .ok bs) (hp : p ∈ bs) :
    p.2.origin = st.modName := by
  cases st with
  | fromStar m =>
      rw [execStmt] at h
      split at h
      · cases h
        exact congrArg Value.origin (mem_starBindings hp).1
      · cases h
  | fromImport m s =>
      rw [execStmt] at h
      split at h
      · split at h
        · cases h
          rcases List.mem_singleton.mp hp with rfl
          rfl
        · cases h
      · cases h
  | importPlain m =>
      rw [execStmt] at h
      split at h
      · cases h
        rcases List.mem_singleton.mp hp with rfl
        rfl
      · split at h
        · cases h
          rcases List.mem_singleton.mp hp with rfl
          rfl
        · cases h

/-- Every binding present after executing a statement list was either
present before or originates from a module that one of the statements
names. -/
theorem execStmts_origin {env top : Env} {rel : Bool}
    {stmts : List Stmt} {ns : NS} {p : String × Value}
    (h : p ∈ (execStmts env top rel stmts ns).1) :
    p ∈ ns ∨ p.2.origin ∈ stmts.map Stmt.modName := by
  induction stmts generalizing ns with
  | nil => exact Or.inl h
  | cons st rest ih =>
      rw [execStmts] at h
      cases hst : execStmt env top rel st with
      | ok bs =>
          rw [hst] at h
          rcases ih h with h2 | h2
          · rcases List.mem_append.mp h2 with h3 | h3
            · exact Or.inr (by
                rw [List.map_cons, execStmt_ok_origin hst h3]
                exact List.mem_cons_self _ _)
            · exact Or.inl h3
          · exact Or.inr (by
              rw [List.map_cons]
              exact List.mem_cons_of_mem _ h2)
      | error e =>
          rw [hst] at h
          exact Or.inl h

section StdRun

variable (atlasM b40M configM scriptsM hashingM snvM rpcM subdomainsM
    namesetM operationsM fastSyncM storageM : Module)

/-- Under implicit-relative resolution, with all twelve submodules present
and `BlockstackAPIEndpoint` among the public symbols of `rpc`, the
initializer completes without error and produces the explicit final
namespace. -/
theorem runInit_std (top : Env)
    (hrpc : "BlockstackAPIEndpoint" ∈ rpcM.publicSymbols) :
    runInit (stdEnv atlasM b40M configM scriptsM hashingM snvM rpcM
        subdomainsM namesetM operationsM fastSyncM storageM) top true
      = (finalNS atlasM b40M configM scriptsM hashingM snvM
          subdomainsM namesetM operationsM fastSyncM, none) := by
  simp [runInit, moduleBody, execStmts, execStmt, stdEnv, finalNS,
    List.lookup, hrpc]

/-- In the standard environment each of the nine plainly imported
submodule names is bound, after initialization, to the corresponding
submodule object: the nine plain bindings sit at the front of the final
namespace and their keys are pairwise distinct. -/
theorem plain_bound (top : Env)
    (hrpc : "BlockstackAPIEndpoint" ∈ rpcM.publicSymbols) :
    ∀ m ∈ plainModules,
      List.lookup m (initNS (stdEnv atlasM b40M configM scriptsM hashingM
          snvM rpcM subdomainsM namesetM operationsM fastSyncM storageM)
          top true)
        = some (Value.submodule m) := by
  intro m hm
  rw [initNS, runInit_std atlasM b40M configM scriptsM hashingM snvM rpcM
    subdomainsM namesetM operationsM fastSyncM storageM top hrpc]
  simp only [plainModules, List.mem_cons, List.not_mem_nil, or_false] at hm
  rcases hm with rfl | rfl | rfl | rfl | rfl | rfl | rfl | rfl | rfl <;>
    simp [finalNS, List.lookup]

/-- C1: after the package initializer runs, every public symbol of each of
the wildcard-imported submodules (atlas, b40, config, scripts, hashing,
snv, subdomains, nameset, operations, fast_sync) is bound in the package's
flat namespace, and the symbol BlockstackAPIEndpoint from rpc is bound as
well. -/
theorem star_symbols_bound (top : Env)
    (hrpc : "BlockstackAPIEndpoint" ∈ rpcM.publicSymbols)
    (m s : String) (hm : m ∈ starModules)
    (hs : s ∈ pubOf (stdEnv atlasM b40M configM scriptsM hashingM snvM rpcM
        subdomainsM namesetM operationsM fastSyncM storageM) m) :
    (List.lookup s (initNS (stdEnv atlasM b40M configM scriptsM hashingM
        snvM rpcM subdomainsM namesetM operationsM fastSyncM storageM)
        top true)).isSome
    ∧ (List.lookup "BlockstackAPIEndpoint"
        (initNS (stdEnv atlasM b40M configM scriptsM hashingM snvM rpcM
          subdomainsM namesetM operationsM fastSyncM storageM)
          top true)).isSome := by
  rw [initNS, runInit_std atlasM b40M configM scriptsM hashingM snvM rpcM
    subdomainsM namesetM operationsM fastSyncM storageM top hrpc]
  simp only [finalNS, List.append_assoc]
  constructor
  · simp only [starModules, List.mem_cons, List.not_mem_nil, or_false] at hm
    rcases hm with rfl | rfl | rfl | rfl | rfl | rfl | rfl | rfl | rfl | rfl
    · simp [pubOf, stdEnv, List.lookup] at hs
      apply lookup_append_isSome
      apply lookup_append_isSome
      apply lookup_append_isSome
      apply lookup_append_isSome
      apply lookup_append_isSome
      apply lookup_append_isSome
      apply lookup_append_isSome
      apply lookup_append_isSome
      apply lookup_append_isSome
      apply lookup_append_isSome
      apply lookup_append_isSome
      rw [lookup_starBindings hs]
      rfl
    · simp [pubOf, stdEnv, List.lookup] at hs
      apply lookup_append_isSome
      apply lookup_append_isSome
      apply lookup_append_isSome
      apply lookup_append_isSome
      apply lookup_append_isSome
      apply lookup_append_isSome
      apply lookup_append_isSome
      apply lookup_append_isSome
      apply lookup_append_isSome
      apply lookup_append_isSome
      rw [lookup_append_left (lookup_starBindings hs)]
      rfl
    · simp [pubOf, stdEnv, List.lookup] at hs
      apply lookup_append_isSome
      apply lookup_append_isSome
      apply lookup_append_isSome
      apply lookup_append_isSome
      apply lookup_append_isSome
      apply lookup_append_isSome
      apply lookup_append_isSome
      apply lookup_append_isSome
      apply lookup_append_isSome
      rw [lookup_append_left (lookup_starBindings hs)]
      rfl
    · simp [pubOf, stdEnv, List.lookup] at hs
      apply lookup_append_isSome
      apply lookup_append_isSome
      apply lookup_append_isSome
      apply lookup_append_isSome
      apply lookup_append_isSome
      apply lookup_append_isSome
      apply lookup_append_isSome
      apply lookup_append_isSome
      rw [lookup_append_left (lookup_starBindings hs)]
      rfl
    · simp [pubOf, stdEnv, List.lookup] at hs
      apply lookup_append_isSome
      apply lookup_append_isSome
      apply lookup_append_isSome
      apply lookup_append_isSome
      apply lookup_append_isSome
      apply lookup_append_isSome
      apply lookup_append_isSome
      rw [lookup_append_left (lookup_starBindings hs)]
      rfl
    · simp [pubOf, stdEnv, List.lookup] at hs
      apply lookup_append_isSome
      apply lookup_append_isSome
      apply lookup_append_isSome
      apply lookup_append_isSome
      apply lookup_append_isSome
      apply lookup_append_isSome
      rw [lookup_append_left (lookup_starBindings hs)]
      rfl
    · simp [pubOf, stdEnv, List.lookup] at hs
      apply lookup_append_isSome
      apply lookup_append_isSome
      apply lookup_append_isSome
      apply lookup_append_isSome
      rw [lookup_append_left (lookup_starBindings hs)]
      rfl
    · simp [pubOf, stdEnv, List.lookup] at hs
      apply lookup_append_isSome
      apply lookup_append_isSome
      apply lookup_append_isSome
      rw [lookup_append_left (lookup_starBindings hs)]
      rfl
    · simp [pubOf, stdEnv, List.lookup] at hs
      apply lookup_append_isSome
      apply lookup_append_isSome
      rw [lookup_append_left (lookup_starBindings hs)]
      rfl
    · simp [pubOf, stdEnv, List.lookup] at hs
      apply lookup_append_isSome
      rw [lookup_append_left (lookup_starBindings hs)]
      rfl
  · apply lookup_append_isSome
    apply lookup_append_isSome
    apply lookup_append_isSome
    apply lookup_append_isSome
    apply lookup_append_isSome
    simp [List.lookup]

/-- C2: after importing the package, each of the nine names atlas,
operations, nameset, storage, config, fast_sync, snv, rpc, subdomains is
bound in the package namespace as the corresponding submodule object. -/
theorem submodule_attributes_bound (top : Env)
    (hrpc : "BlockstackAPIEndpoint" ∈ rpcM.publicSymbols) :
    ∀ m ∈ plainModules,
      List.lookup m (initNS (stdEnv atlasM b40M configM scriptsM hashingM
          snvM rpcM subdomainsM namesetM operationsM fastSyncM storageM)
          top true)
        = some (Value.submodule m) :=
  plain_bound atlasM b40M configM scriptsM hashingM snvM rpcM subdomainsM
    namesetM operationsM fastSyncM storageM top hrpc

/-- C3: importing the package completes normally: the initializer executes
every statement of the module body without an exception escaping, so the
run ends with no error. -/
theorem init_completes_without_error (top : Env)
    (hrpc : "BlockstackAPIEndpoint" ∈ rpcM.publicSymbols) :
    (runInit (stdEnv atlasM b40M configM scriptsM hashingM snvM rpcM
        subdomainsM namesetM operationsM fastSyncM storageM) top true).2
      = none := by
  rw [runInit_std atlasM b40M configM scriptsM hashingM snvM rpcM
    subdomainsM namesetM operationsM fastSyncM storageM top hrpc]

/-- C4: the single-symbol import from rpc re-exports exactly
BlockstackAPIEndpoint into the flat namespace: every symbol value
originating from rpc that is bound after initialization is
BlockstackAPIEndpoint, and the name rpc itself is bound as a submodule
object. -/
theorem rpc_reexports_only_endpoint (top : Env)
    (hrpc : "BlockstackAPIEndpoint" ∈ rpcM.publicSymbols) :
    (∀ p ∈ initNS (stdEnv atlasM b40M configM scriptsM hashingM snvM rpcM
        subdomainsM namesetM operationsM fastSyncM storageM) top true,
      ∀ s2 : String, p.2 = Value.symbol "rpc" s2 →
        s2 = "BlockstackAPIEndpoint")
    ∧ List.lookup "rpc" (initNS (stdEnv atlasM b40M configM scriptsM
        hashingM snvM rpcM subdomainsM namesetM operationsM fastSyncM
        storageM) top true)
      = some (Value.submodule "rpc") := by
  constructor
  · intro p hp s2 hv
    rw [initNS, runInit_std atlasM b40M configM scriptsM hashingM snvM rpcM
      subdomainsM namesetM operationsM fastSyncM storageM top hrpc] at hp
    simp only [finalNS, List.append_assoc, List.mem_append, List.mem_cons,
      List.not_mem_nil, or_false] at hp
    rcases hp with
      ((rfl | rfl | rfl | rfl | rfl | rfl | rfl | rfl | rfl) | h3 | h3 |
        h3 | h3 | rfl | h3 | h3 | h3 | h3 | h3 | h3)
    all_goals first
      | (rw [(mem_starBindings h3).1] at hv; simp at hv)
      | (simp only [] at hv; simp at hv; exact hv.symm)
      | simp at hv
  · rw [initNS, runInit_std atlasM b40M configM scriptsM hashingM snvM rpcM
      subdomainsM namesetM operationsM fastSyncM storageM top hrpc]
    simp [finalNS, List.lookup]

/-- C9: the trailing plain imports resolve to the package's own submodules
under Python 2 implicit-relative resolution, binding each of the nine
names to the corresponding submodule object; under absolute resolution
with no top-level modules of those names, importing the package raises
an import error at the first plain import statement. -/
theorem plain_import_resolution (top : Env)
    (hrpc : "BlockstackAPIEndpoint" ∈ rpcM.publicSymbols) :
    (∀ m ∈ plainModules,
        List.lookup m (initNS (stdEnv atlasM b40M configM scriptsM hashingM
            snvM rpcM subdomainsM namesetM operationsM fastSyncM storageM)
            top true)
          = some (Value.submodule m))
    ∧ (runInit (stdEnv atlasM b40M configM scriptsM hashingM snvM rpcM
        subdomainsM namesetM operationsM fastSyncM storageM) [] false).2
      = some ("No module named " ++ "atlas") := by
  refine ⟨plain_bound atlasM b40M configM scriptsM hashingM snvM rpcM
    subdomainsM namesetM operationsM fastSyncM storageM top hrpc, ?_⟩
  simp [runInit, moduleBody, execStmts, execStmt, stdEnv, List.lookup, hrpc]

end StdRun

/-- Witness for C1 at a concrete environment: `atlas` exports the symbol
`A`, and both `A` and `BlockstackAPIEndpoint` are bound after the run. -/
theorem star_symbols_bound_witness :
    "BlockstackAPIEndpoint" ∈ (Module.mk ["BlockstackAPIEndpoint"]).publicSymbols
    ∧ "atlas" ∈ starModules
    ∧ "A" ∈ pubOf (stdEnv (Module.mk ["A"]) (Module.mk []) (Module.mk [])
        (Module.mk []) (Module.mk []) (Module.mk [])
        (Module.mk ["BlockstackAPIEndpoint"]) (Module.mk []) (Module.mk [])
        (Module.mk []) (Module.mk []) (Module.mk [])) "atlas"
    ∧ ((List.lookup "A" (initNS (stdEnv (Module.mk ["A"]) (Module.mk [])
          (Module.mk []) (Module.mk []) (Module.mk []) (Module.mk [])
          (Module.mk ["BlockstackAPIEndpoint"]) (Module.mk [])
          (Module.mk []) (Module.mk []) (Module.mk []) (Module.mk []))
          [] true)).isSome
        ∧ (List.lookup "BlockstackAPIEndpoint"
            (initNS (stdEnv (Module.mk ["A"]) (Module.mk []) (Module.mk [])
              (Module.mk []) (Module.mk []) (Module.mk [])
              (Module.mk ["BlockstackAPIEndpoint"]) (Module.mk [])
              (Module.mk []) (Module.mk []) (Module.mk []) (Module.mk []))
              [] true)).isSome) :=
  ⟨by decide, by decide, by decide,
    star_symbols_bound (Module.mk ["A"]) (Module.mk []) (Module.mk [])
      (Module.mk []) (Module.mk []) (Module.mk [])
      (Module.mk ["BlockstackAPIEndpoint"]) (Module.mk []) (Module.mk [])
      (Module.mk []) (Module.mk []) (Module.mk []) [] (by decide)
      "atlas" "A" (by decide) (by decide)⟩

/-- Witness for C2 at a concrete environment: the name `storage` is bound
to the `storage` submodule object after the run. -/
theorem submodule_attributes_bound_witness :
    "BlockstackAPIEndpoint" ∈ (Module.mk ["BlockstackAPIEndpoint"]).publicSymbols
    ∧ "storage" ∈ plainModules
    ∧ List.lookup "storage" (initNS (stdEnv (Module.mk []) (Module.mk [])
        (Module.mk []) (Module.mk []) (Module.mk []) (Module.mk [])
        (Module.mk ["BlockstackAPIEndpoint"]) (Module.mk []) (Module.mk [])
        (Module.mk []) (Module.mk []) (Module.mk [])) [] true)
      = some (Value.submodule "storage") :=
  ⟨by decide, by decide,
    submodule_attributes_bound (Module.mk []) (Module.mk []) (Module.mk [])
      (Module.mk []) (Module.mk []) (Module.mk [])
      (Module.mk ["BlockstackAPIEndpoint"]) (Module.mk []) (Module.mk [])
      (Module.mk []) (Module.mk []) (Module.mk []) [] (by decide)
      "storage" (by decide)⟩

/-- Witness for C3 at a concrete environment: the run ends with no
error. -/
theorem init_completes_without_error_witness :
    "BlockstackAPIEndpoint" ∈ (Module.mk ["BlockstackAPIEndpoint"]).publicSymbols
    ∧ (runInit (stdEnv (Module.mk []) (Module.mk []) (Module.mk [])
        (Module.mk []) (Module.mk []) (Module.mk [])
        (Module.mk ["BlockstackAPIEndpoint"]) (Module.mk []) (Module.mk [])
        (Module.mk []) (Module.mk []) (Module.mk [])) [] true).2 = none :=
  ⟨by decide,
    init_completes_without_error (Module.mk []) (Module.mk []) (Module.mk [])
      (Module.mk []) (Module.mk []) (Module.mk [])
      (Module.mk ["BlockstackAPIEndpoint"]) (Module.mk []) (Module.mk [])
      (Module.mk []) (Module.mk []) (Module.mk []) [] (by decide)⟩

/-- Witness for C4 at a concrete environment: the BlockstackAPIEndpoint
binding is present and the name rpc is bound to the submodule object. -/
theorem rpc_reexports_only_endpoint_witness :
    "BlockstackAPIEndpoint" ∈ (Module.mk ["BlockstackAPIEndpoint"]).publicSymbols
    ∧ ("BlockstackAPIEndpoint", Value.symbol "rpc" "BlockstackAPIEndpoint")
        ∈ initNS (stdEnv (Module.mk []) (Module.mk []) (Module.mk [])
          (Module.mk []) (Module.mk []) (Module.mk [])
          (Module.mk ["BlockstackAPIEndpoint"]) (Module.mk [])
          (Module.mk []) (Module.mk []) (Module.mk []) (Module.mk []))
          [] true
    ∧ List.lookup "rpc" (initNS (stdEnv (Module.mk []) (Module.mk [])
        (Module.mk []) (Module.mk []) (Module.mk []) (Module.mk [])
        (Module.mk ["BlockstackAPIEndpoint"]) (Module.mk []) (Module.mk [])
        (Module.mk []) (Module.mk []) (Module.mk [])) [] true)
      = some (Value.submodule "rpc") :=
  ⟨by decide, by decide,
    (rpc_reexports_only_endpoint (Module.mk []) (Module.mk [])
      (Module.mk []) (Module.mk []) (Module.mk []) (Module.mk [])
      (Module.mk ["BlockstackAPIEndpoint"]) (Module.mk []) (Module.mk [])
      (Module.mk []) (Module.mk []) (Module.mk []) [] (by decide)).2⟩

/-- Witness for C9 at a concrete environment: under implicit-relative
resolution the name rpc is bound to the submodule object, and under
absolute resolution with no top-level modules the run fails at the first
plain import. -/
theorem plain_import_resolution_witness :
    "BlockstackAPIEndpoint" ∈ (Module.mk ["BlockstackAPIEndpoint"]).publicSymbols
    ∧ "rpc" ∈ plainModules
    ∧ List.lookup "rpc" (initNS (stdEnv (Module.mk []) (Module.mk [])
        (Module.mk []) (Module.mk []) (Module.mk []) (Module.mk [])
        (Module.mk ["BlockstackAPIEndpoint"]) (Module.mk []) (Module.mk [])
        (Module.mk []) (Module.mk []) (Module.mk [])) [("six", Module.mk [])]
        true)
      = some (Value.submodule "rpc")
    ∧ (runInit (stdEnv (Module.mk []) (Module.mk []) (Module.mk [])
        (Module.mk []) (Module.mk []) (Module.mk [])
        (Module.mk ["BlockstackAPIEndpoint"]) (Module.mk []) (Module.mk [])
        (Module.mk []) (Module.mk []) (Module.mk [])) [] false).2
      = some ("No module named " ++ "atlas") :=
  ⟨by decide, by decide,
    (plain_import_resolution (Module.mk []) (Module.mk []) (Module.mk [])
      (Module.mk []) (Module.mk []) (Module.mk [])
      (Module.mk ["BlockstackAPIEndpoint"]) (Module.mk []) (Module.mk [])
      (Module.mk []) (Module.mk []) (Module.mk []) [("six", Module.mk [])]
      (by decide)).1 "rpc" (by decide),
    (plain_import_resolution (Module.mk []) (Module.mk []) (Module.mk [])
      (Module.mk []) (Module.mk []) (Module.mk [])
      (Module.mk ["BlockstackAPIEndpoint"]) (Module.mk []) (Module.mk [])
      (Module.mk []) (Module.mk []) (Module.mk []) [("six", Module.mk [])]
      (by decide)).2⟩

/-- C5: the module body is a list of import statements only (the embedding
`moduleBody` admits no other statement form), so every binding present in
the package namespace after initialization originates from a module named
by one of the import statements. -/
theorem bindings_originate_from_imports (env top : Env) (rel : Bool) :
    ∀ p ∈ initNS env top rel, p.2.origin ∈ moduleBody.map Stmt.modName := by
  intro p hp
  rw [initNS, runInit] at hp
  rcases execStmts_origin hp with h | h
  · cases h
  · exact h

/-- Witness for C5 at a concrete environment: the binding of `atlas` to
its submodule object originates from a module named by the body. -/
theorem bindings_originate_from_imports_witness :
    ("atlas", Value.submodule "atlas") ∈ initNS (stdEnv (Module.mk [])
      (Module.mk []) (Module.mk []) (Module.mk []) (Module.mk [])
      (Module.mk []) (Module.mk ["BlockstackAPIEndpoint"]) (Module.mk [])
      (Module.mk []) (Module.mk []) (Module.mk []) (Module.mk [])) [] true
    ∧ ("atlas", Value.submodule "atlas").2.origin
        ∈ moduleBody.map Stmt.modName :=
  ⟨by decide,
    bindings_originate_from_imports (stdEnv (Module.mk []) (Module.mk [])
      (Module.mk []) (Module.mk []) (Module.mk []) (Module.mk [])
      (Module.mk ["BlockstackAPIEndpoint"]) (Module.mk []) (Module.mk [])
      (Module.mk []) (Module.mk []) (Module.mk [])) [] true
      ("atlas", Value.submodule "atlas") (by decide)⟩

/-- C6: the initializer catches no exception: if the body splits as `pre`
followed by a failing statement, the error of that statement propagates
unchanged as the result of the whole run, and the namespace retains
exactly the bindings made by `pre`. -/
theorem import_error_propagates (env top : Env) (rel : Bool)
    (pre : List Stmt) (st : Stmt) (post : List Stmt) (ns1 : NS) (e : String)
    (hsplit : moduleBody = pre ++ st :: post)
    (hpre : execStmts env top rel pre [] = (ns1, none))
    (hst : execStmt env top rel st = .error e) :
    runInit env top rel = (ns1, some e) := by
  rw [runInit, hsplit, execStmts_append_ok hpre, execStmts, hst]

/-- Witness for C6 at a concrete environment in which `rpc` lacks
BlockstackAPIEndpoint: the six preceding wildcard imports succeed (binding
nothing, as the modules are empty), the seventh statement fails, and the
error surfaces unchanged with the namespace as left by the first six
statements. -/
theorem import_error_propagates_witness :
    moduleBody
      = [Stmt.fromStar "atlas", Stmt.fromStar "b40", Stmt.fromStar "config",
          Stmt.fromStar "scripts", Stmt.fromStar "hashing",
          Stmt.fromStar "snv"]
        ++ Stmt.fromImport "rpc" "BlockstackAPIEndpoint"
          :: [Stmt.fromStar "subdomains", Stmt.fromStar "nameset",
              Stmt.fromStar "operations", Stmt.fromStar "fast_sync",
              Stmt.importPlain "atlas", Stmt.importPlain "operations",
              Stmt.importPlain "nameset", Stmt.importPlain "storage",
              Stmt.importPlain "config", Stmt.importPlain "fast_sync",
              Stmt.importPlain "snv", Stmt.importPlain "rpc",
              Stmt.importPlain "subdomains"]
    ∧ runInit (stdEnv (Module.mk []) (Module.mk []) (Module.mk [])
        (Module.mk []) (Module.mk []) (Module.mk []) (Module.mk [])
        (Module.mk []) (Module.mk []) (Module.mk []) (Module.mk [])
        (Module.mk [])) [] true
      = ([], some ("cannot import name " ++ "BlockstackAPIEndpoint")) :=
  ⟨rfl,
    import_error_propagates (stdEnv (Module.mk []) (Module.mk [])
      (Module.mk []) (Module.mk []) (Module.mk []) (Module.mk [])
      (Module.mk []) (Module.mk []) (Module.mk []) (Module.mk [])
      (Module.mk []) (Module.mk [])) [] true
      [Stmt.fromStar "atlas", Stmt.fromStar "b40", Stmt.fromStar "config",
        Stmt.fromStar "scripts", Stmt.fromStar "hashing",
        Stmt.fromStar "snv"]
      (Stmt.fromImport "rpc" "BlockstackAPIEndpoint")
      [Stmt.fromStar "subdomains", Stmt.fromStar "nameset",
        Stmt.fromStar "operations", Stmt.fromStar "fast_sync",
        Stmt.importPlain "atlas", Stmt.importPlain "operations",
        Stmt.importPlain "nameset", Stmt.importPlain "storage",
        Stmt.importPlain "config", Stmt.importPlain "fast_sync",
        Stmt.importPlain "snv", Stmt.importPlain "rpc",
        Stmt.importPlain "subdomains"]
      [] ("cannot import name " ++ "BlockstackAPIEndpoint") rfl rfl rfl⟩

/-- C7 counterexample: when two wildcard-imported submodules both export a
public name that coincides with one of the nine plainly imported submodule
names, the binding present after initialization is not the one from the
latest wildcard exporter.  Here atlas and b40 both export the name `rpc`;
the latest wildcard exporter in source order is b40, yet the final binding
of `rpc` is the submodule object bound by the trailing plain import. -/
theorem last_wins_counterexample :
    pubOf (stdEnv (Module.mk ["rpc"]) (Module.mk ["rpc"]) (Module.mk [])
        (Module.mk []) (Module.mk []) (Module.mk [])
        (Module.mk ["BlockstackAPIEndpoint"]) (Module.mk []) (Module.mk [])
        (Module.mk []) (Module.mk []) (Module.mk [])) "atlas" = ["rpc"]
    ∧ pubOf (stdEnv (Module.mk ["rpc"]) (Module.mk ["rpc"]) (Module.mk [])
        (Module.mk []) (Module.mk []) (Module.mk [])
        (Module.mk ["BlockstackAPIEndpoint"]) (Module.mk []) (Module.mk [])
        (Module.mk []) (Module.mk []) (Module.mk [])) "b40" = ["rpc"]
    ∧ List.lookup "rpc" (initNS (stdEnv (Module.mk ["rpc"])
        (Module.mk ["rpc"]) (Module.mk []) (Module.mk []) (Module.mk [])
        (Module.mk []) (Module.mk ["BlockstackAPIEndpoint"]) (Module.mk [])
        (Module.mk []) (Module.mk []) (Module.mk []) (Module.mk []))
        [] true)
      = some (Value.submodule "rpc")
    ∧ Value.submodule "rpc" ≠ Value.symbol "b40" "rpc" := by
  decide

/-- C7 amended: the wildcard re-exports are applied in source order with
later bindings shadowing earlier ones, so the binding present after
initialization is the one from the latest wildcard import that binds the
name, provided no later statement of the body rebinds it; in particular
the name must not be among the nine plainly imported submodule names,
whose trailing plain imports rebind them to submodule objects. -/
theorem last_wins_amended (env top : Env) (rel : Bool)
    (pre : List Stmt) (m : String) (post : List Stmt)
    (s : String) (mod : Module) (ns1 : NS)
    (hsplit : moduleBody = pre ++ Stmt.fromStar m :: post)
    (hpre : execStmts env top rel pre [] = (ns1, none))
    (henv : env.lookup m = some mod)
    (hs : s ∈ mod.publicSymbols)
    (hpost : ∀ st ∈ post, s ∉ stmtBoundNames env top rel st) :
    List.lookup s (initNS env top rel) = some (Value.symbol m s) := by
  have hstep : execStmt env top rel (Stmt.fromStar m)
      = .ok (starBindings m mod) := by
    rw [execStmt, henv]
  have h2 : execStmts env top rel (Stmt.fromStar m :: post) ns1
      = execStmts env top rel post (starBindings m mod ++ ns1) := by
    rw [execStmts, hstep]
  rw [initNS, runInit, hsplit, execStmts_append_ok hpre, h2,
    execStmts_lookup_skip hpost]
  exact lookup_append_left (lookup_starBindings hs)

/-- Witness for the amended C7: atlas and b40 both export `foo`; b40 is
the later wildcard import, no later statement binds `foo`, and the final
binding of `foo` is the symbol from b40. -/
theorem last_wins_amended_witness :
    moduleBody
      = [Stmt.fromStar "atlas"]
        ++ Stmt.fromStar "b40"
          :: [Stmt.fromStar "config", Stmt.fromStar "scripts",
              Stmt.fromStar "hashing", Stmt.fromStar "snv",
              Stmt.fromImport "rpc" "BlockstackAPIEndpoint",
              Stmt.fromStar "subdomains", Stmt.fromStar "nameset",
              Stmt.fromStar "operations", Stmt.fromStar "fast_sync",
              Stmt.importPlain "atlas", Stmt.importPlain "operations",
              Stmt.importPlain "nameset", Stmt.importPlain "storage",
              Stmt.importPlain "config", Stmt.importPlain "fast_sync",
              Stmt.importPlain "snv", Stmt.importPlain "rpc",
              Stmt.importPlain "subdomains"]
    ∧ "foo" ∈ (Module.mk ["foo"]).publicSymbols
    ∧ List.lookup "foo" (initNS (stdEnv (Module.mk ["foo"])
        (Module.mk ["foo"]) (Module.mk []) (Module.mk []) (Module.mk [])
        (Module.mk []) (Module.mk ["BlockstackAPIEndpoint"]) (Module.mk [])
        (Module.mk []) (Module.mk []) (Module.mk []) (Module.mk []))
        [] true)
      = some (Value.symbol "b40" "foo") :=
  ⟨rfl, by decide,
    last_wins_amended (stdEnv (Module.mk ["foo"]) (Module.mk ["foo"])
      (Module.mk []) (Module.mk []) (Module.mk []) (Module.mk [])
      (Module.mk ["BlockstackAPIEndpoint"]) (Module.mk []) (Module.mk [])
      (Module.mk []) (Module.mk []) (Module.mk [])) [] true
      [Stmt.fromStar "atlas"] "b40"
      [Stmt.fromStar "config", Stmt.fromStar "scripts",
        Stmt.fromStar "hashing", Stmt.fromStar "snv",
        Stmt.fromImport "rpc" "BlockstackAPIEndpoint",
        Stmt.fromStar "subdomains", Stmt.fromStar "nameset",
        Stmt.fromStar "operations", Stmt.fromStar "fast_sync",
        Stmt.importPlain "atlas", Stmt.importPlain "operations",
        Stmt.importPlain "nameset", Stmt.importPlain "storage",
        Stmt.importPlain "config", Stmt.importPlain "fast_sync",
        Stmt.importPlain "snv", Stmt.importPlain "rpc",
        Stmt.importPlain "subdomains"]
      "foo" (Module.mk ["foo"]) [("foo", Value.symbol "atlas" "foo")]
      rfl rfl rfl (by decide) (by decide)⟩

/-- C8: the re-export surface and the submodule-attribute surface of the
body are asymmetric: storage is plainly imported but never
wildcard-imported (and no single-symbol import draws from it), while b40,
scripts and hashing are wildcard-imported but not plainly imported. -/
theorem surface_asymmetry :
    "storage" ∈ plainImported
    ∧ "storage" ∉ starImported
    ∧ (∀ st ∈ moduleBody, st.modName = "storage" →
        st = Stmt.importPlain "storage")
    ∧ "b40" ∈ starImported ∧ "b40" ∉ plainImported
    ∧ "scripts" ∈ starImported ∧ "scripts" ∉ plainImported
    ∧ "hashing" ∈ starImported ∧ "hashing" ∉ plainImported := by
  decide

end BlockstackLib
